import Mathlib

/-!
Verification of the Svelte editor-extension shim (`src/svelte.rs`, `src/runtime.rs`).

The extension delegates every capability to the host editor.  We embed the host
as an oracle (`Host`), the extension instance as its session state
(`SvelteExtension`), and each operation as a pure function that additionally
returns the ordered list of host calls it performed (`HostEvent` trace), so that
call-count and ordering properties are statable.
-/

/-- The package name of the Svelte language server (`PACKAGE_NAME` in `svelte.rs`). -/
def PACKAGE_NAME : String := "svelte-language-server"

/-- The TypeScript plugin package (`TS_PLUGIN_PACKAGE_NAME` in `svelte.rs`). -/
def TS_PLUGIN_PACKAGE_NAME : String := "typescript-svelte-plugin"

/-- The MCP server package (`MCP_SERVER_PACKAGE_NAME` in `svelte.rs`). -/
def MCP_SERVER_PACKAGE_NAME : String := "@sveltejs/mcp"

/-- The two installation statuses `install_package_if_needed` reports to the host
(`zed::LanguageServerInstallationStatus` variants used by `svelte.rs`). -/
inductive LanguageServerInstallationStatus where
  | CheckingForUpdate
  | Downloading
deriving DecidableEq, Repr

/-- The host-editor capability surface consumed by `install_package_if_needed`:
`zed::npm_package_installed_version`, `zed::npm_package_latest_version` and
`zed::npm_install_package`.  Each is modelled as a fixed oracle; `Result<T>` in the
host API is `Except String T`. -/
structure Host where
  npm_package_installed_version : String → Except String (Option String)
  npm_package_latest_version : String → Except String String
  npm_install_package : String → String → Except String Unit

/-- One host call performed during a run: the installed-version query, the
latest-version (registry) query, the install call, or a
`set_language_server_installation_status` notification. -/
inductive HostEvent where
  | installedVersionQuery (package_name : String)
  | latestVersionQuery (package_name : String)
  | installCall (package_name : String) (version : String)
  | statusUpdate (id : String) (status : LanguageServerInstallationStatus)
deriving DecidableEq, Repr

/-- The extension instance (`struct SvelteExtension` in `svelte.rs`): its only state
is the session-scoped set of already-provisioned package names
(`installed: HashSet<String>`), modelled as a duplicate-free-by-insert list. -/
structure SvelteExtension where
  installed : List String
deriving DecidableEq, Repr

/-- Result of one run of a fallible extension operation: the returned
`Result<()>`, the extension state after the run (`&mut self`), and the ordered
trace of host calls performed. -/
structure RunResult where
  result : Except String Unit
  self : SvelteExtension
  trace : List HostEvent
deriving Repr

/-- Status notification performed `if let Some(id) = id` in `svelte.rs`:
emits one `statusUpdate` event when an observer id is present, none otherwise. -/
def statusEventsFor (id : Option String) (st : LanguageServerInstallationStatus) :
    List HostEvent :=
  match id with
  | some i => [HostEvent.statusUpdate i st]
  | none => []

/-- Embedding of `SvelteExtension::install_package_if_needed` (`svelte.rs` lines 13-57),
line by line:
1. query the installed version (`?` propagates a query failure);
2. fast path: installed version present and `package_name` already in `self.installed`;
3. notify `CheckingForUpdate` when an observer id is supplied;
4. query the latest version (`?` propagates a query failure);
5. if installed ≠ latest: notify `Downloading`, attempt install; on install failure
   propagate the error only when no installed version exists, otherwise swallow it;
6. insert `package_name` into `self.installed` and return `Ok(())`. -/
def install_package_if_needed (host : Host) (self : SvelteExtension)
    (id : Option String) (package_name : String) : RunResult :=
  match host.npm_package_installed_version package_name with
  | .error e => ⟨.error e, self, [.installedVersionQuery package_name]⟩
  | .ok installed_version =>
    let tr0 := [HostEvent.installedVersionQuery package_name]
    if installed_version.isSome && self.installed.contains package_name then
      ⟨.ok (), self, tr0⟩
    else
      let tr1 := tr0 ++ statusEventsFor id .CheckingForUpdate
      match host.npm_package_latest_version package_name with
      | .error e => ⟨.error e, self, tr1 ++ [.latestVersionQuery package_name]⟩
      | .ok latest_version =>
        let tr2 := tr1 ++ [HostEvent.latestVersionQuery package_name]
        if installed_version ≠ some latest_version then
          let tr3 := tr2 ++ statusEventsFor id .Downloading
                         ++ [HostEvent.installCall package_name latest_version]
          match host.npm_install_package package_name latest_version with
          | .error error =>
            if installed_version.isNone then
              ⟨.error error, self, tr3⟩
            else
              ⟨.ok (), ⟨self.installed.insert package_name⟩, tr3⟩
          | .ok _ => ⟨.ok (), ⟨self.installed.insert package_name⟩, tr3⟩
        else
          ⟨.ok (), ⟨self.installed.insert package_name⟩, tr2⟩

/-- The installation statuses reported during a run, in order. -/
def reportedStatuses (tr : List HostEvent) : List LanguageServerInstallationStatus :=
  tr.filterMap fun e =>
    match e with
    | .statusUpdate _ st => some st
    | _ => none

/-- Whether a host event is a latest-version (registry) query or an install call —
the calls the provisioned set exists to avoid repeating. -/
def isLatestOrInstall : HostEvent → Bool
  | .latestVersionQuery _ => true
  | .installCall _ _ => true
  | _ => false

/-- Whether a host event is an install call. -/
def isInstallCall : HostEvent → Bool
  | .installCall _ _ => true
  | _ => false

/-- A launch descriptor (`zed::Command`): executable, ordered argument list,
environment mapping. -/
structure Command where
  command : String
  args : List String
  env : List (String × String)
deriving DecidableEq, Repr

/-- The runtime choice (`enum Runtime` in `runtime.rs`): the alternative runtime
`Bun` with the executable path found on `PATH`, or the host-default `Node`. -/
inductive Runtime where
  | Bun (path : String)
  | Node
deriving DecidableEq, Repr

/-- Embedding of `Runtime::new` (`runtime.rs` lines 12-23): `which("bun")` is the
oracle argument — `some path` when the executable is found on `PATH`, `none`
otherwise.  Found ⇒ `Bun path`; not found ⇒ fall back to `Node`. -/
def Runtime.new (which_bun : Option String) : Runtime :=
  match which_bun with
  | some path => .Bun path
  | none => .Node

/-- Embedding of `Runtime::server_command` (`runtime.rs` lines 25-36):
`node_binary_path` is the host's `zed::node_binary_path()` oracle, consulted only
in the `Node` arm (where its failure propagates via `?`).  The argument list is
`[server_path, "--stdio"]` in both arms. -/
def Runtime.server_command (rt : Runtime) (node_binary_path : Except String String)
    (server_path : String) : Except String Command :=
  match (match rt with
         | .Bun path => Except.ok path
         | .Node => node_binary_path) with
  | .error e => .error e
  | .ok command => .ok ⟨command, [server_path, "--stdio"], []⟩

/-- Target platforms of the host editor.  The path constructions in `svelte.rs`
take the platform as a parameter only so that platform-dependence claims are
statable; the source contains no platform conditional, so the definitions below
ignore it. -/
inductive Os where
  | macOS
  | linux
  | windows
deriving DecidableEq, Repr

/-- The entry-script path built by `SvelteExtension::language_server_command`
(`svelte.rs` lines 78-85): `env::current_dir()` joined with `node_modules`,
`PACKAGE_NAME` and `bin/server.js` via successive `PathBuf::join`, then
stringified.  The same expression is compiled for every platform: no separator
stripping or other normalization appears on any branch. -/
def language_server_entry_path (_os : Os) (current_dir : String) : String :=
  current_dir ++ "/node_modules" ++ "/" ++ PACKAGE_NAME ++ "/bin/server.js"

/-- The entry-script path built by `SvelteExtension::context_server_command`
(`svelte.rs` lines 163-169): `env::current_dir()` joined with `node_modules`,
`MCP_SERVER_PACKAGE_NAME` and `dist/index.js`. -/
def context_server_entry_path (_os : Os) (current_dir : String) : String :=
  current_dir ++ "/node_modules" ++ "/" ++ MCP_SERVER_PACKAGE_NAME ++ "/dist/index.js"

/-- Embedding of `SvelteExtension::context_server_command` (`svelte.rs` lines 156-174):
provision `MCP_SERVER_PACKAGE_NAME` with no status observer (`None`), propagating a
provisioning failure; then build the descriptor from `zed::node_binary_path()` with the
entry script as the sole argument. -/
def context_server_command (host : Host) (self : SvelteExtension)
    (node_binary_path : Except String String) (os : Os) (current_dir : String) :
    Except String Command × SvelteExtension :=
  let r := install_package_if_needed host self none MCP_SERVER_PACKAGE_NAME
  match r.result with
  | .error e => (.error e, r.self)
  | .ok _ =>
    match node_binary_path with
    | .error e => (.error e, r.self)
    | .ok node => (.ok ⟨node, [context_server_entry_path os current_dir], []⟩, r.self)

/-- Demo oracle: a package installed at 1.0.0 whose registry latest is 1.1.0, with a
working install call. -/
def updateHost : Host :=
  { npm_package_installed_version := fun _ => .ok (some "1.0.0"),
    npm_package_latest_version := fun _ => .ok "1.1.0",
    npm_install_package := fun _ _ => .ok () }

/-- Demo oracle: like `updateHost` but the install call fails. -/
def failingInstallHost : Host :=
  { updateHost with npm_install_package := fun _ _ => .error "npm install failed" }

/-- Demo oracle: no installed version and a failing install call. -/
def freshInstallFailHost : Host :=
  { npm_package_installed_version := fun _ => .ok none,
    npm_package_latest_version := fun _ => .ok "1.1.0",
    npm_install_package := fun _ _ => .error "npm install failed" }

/-- Demo oracle: a package already at the latest version 2.0.0. -/
def currentHost : Host :=
  { npm_package_installed_version := fun _ => .ok (some "2.0.0"),
    npm_package_latest_version := fun _ => .ok "2.0.0",
    npm_install_package := fun _ _ => .ok () }

/-- Demo oracle: the latest-version (registry) query fails. -/
def queryFailHost : Host :=
  { npm_package_installed_version := fun _ => .ok (some "1.0.0"),
    npm_package_latest_version := fun _ => .error "registry unreachable",
    npm_install_package := fun _ _ => .ok () }

/-- Status notifications contribute no latest-version or install events. -/
theorem filter_isLatestOrInstall_statusEventsFor (id : Option String)
    (st : LanguageServerInstallationStatus) :
    (statusEventsFor id st).filter isLatestOrInstall = [] := by
  cases id <;> rfl

/-- Status notifications contribute no install events. -/
theorem filter_isInstallCall_statusEventsFor (id : Option String)
    (st : LanguageServerInstallationStatus) :
    (statusEventsFor id st).filter isInstallCall = [] := by
  cases id <;> rfl

/-- Characterization of the host-call trace of a run of `install_package_if_needed`
that does not take the fast path and whose two version queries succeed: the
installed-version query, then the optional `CheckingForUpdate` notification, then the
latest-version query, then — exactly when the versions differ — the optional
`Downloading` notification and the install call. -/
theorem install_package_trace (host : Host) (self : SvelteExtension) (id : Option String)
    (package_name latest : String) (installed_version : Option String)
    (h1 : host.npm_package_installed_version package_name = .ok installed_version)
    (hb : (installed_version.isSome && self.installed.contains package_name) ≠ true)
    (h3 : host.npm_package_latest_version package_name = .ok latest) :
    (install_package_if_needed host self id package_name).trace
      = [.installedVersionQuery package_name]
        ++ statusEventsFor id .CheckingForUpdate
        ++ [.latestVersionQuery package_name]
        ++ (if installed_version = some latest then []
            else statusEventsFor id .Downloading
                  ++ [.installCall package_name latest]) := by
  simp only [install_package_if_needed, h1, h3]
  rw [if_neg hb]
  by_cases he : installed_version = some latest
  · simp [he]
  · simp only [he, ne_eq, not_false_eq_true, if_true, if_false, ite_true, ite_false]
    rcases hi : host.npm_install_package package_name latest with e | u
    · by_cases hn : installed_version.isNone <;> simp [hn, he]
    · simp [he]

/-- Claim C1: if `install_package_if_needed` observes an existing installed version,
attempts an installation (the latest version differs) and that installation fails,
the run still returns success and the package name is added to the provisioned set —
the install error is swallowed. -/
theorem install_failure_with_existing_version_swallowed
    (host : Host) (self : SvelteExtension) (id : Option String)
    (package_name v latest e : String)
    (h1 : host.npm_package_installed_version package_name = .ok (some v))
    (h2 : package_name ∉ self.installed)
    (h3 : host.npm_package_latest_version package_name = .ok latest)
    (h4 : v ≠ latest)
    (h5 : host.npm_install_package package_name latest = .error e) :
    (install_package_if_needed host self id package_name).result = .ok ()
    ∧ package_name ∈ (install_package_if_needed host self id package_name).self.installed := by
  simp [install_package_if_needed, h1, h2, h3, h4, h5, List.elem_eq_mem,
    List.mem_insert_self]

/-- Claim C1 witness: installed 1.0.0, latest 1.1.0, failing install — the run
succeeds and the package is provisioned. -/
theorem install_failure_with_existing_version_swallowed_witness :
    (install_package_if_needed failingInstallHost ⟨[]⟩ (some "svelte") PACKAGE_NAME).result
      = .ok ()
    ∧ PACKAGE_NAME ∈ (install_package_if_needed failingInstallHost ⟨[]⟩
        (some "svelte") PACKAGE_NAME).self.installed :=
  install_failure_with_existing_version_swallowed failingInstallHost ⟨[]⟩ (some "svelte")
    PACKAGE_NAME "1.0.0" "1.1.0" "npm install failed" rfl (by decide) rfl (by decide) rfl

/-- Claim C2: if `install_package_if_needed` observes no installed version and the
installation fails, the install error is returned and the provisioned set is left
unchanged (the package name is not added). -/
theorem install_failure_without_existing_version_propagates
    (host : Host) (self : SvelteExtension) (id : Option String)
    (package_name latest e : String)
    (h1 : host.npm_package_installed_version package_name = .ok none)
    (h2 : host.npm_package_latest_version package_name = .ok latest)
    (h3 : host.npm_install_package package_name latest = .error e) :
    (install_package_if_needed host self id package_name).result = .error e
    ∧ (install_package_if_needed host self id package_name).self.installed
        = self.installed := by
  simp [install_package_if_needed, h1, h2, h3]

/-- Claim C2 witness: nothing installed, failing install — the error is returned and
the provisioned set stays empty. -/
theorem install_failure_without_existing_version_propagates_witness :
    (install_package_if_needed freshInstallFailHost ⟨[]⟩ (some "svelte") PACKAGE_NAME).result
      = .error "npm install failed"
    ∧ (install_package_if_needed freshInstallFailHost ⟨[]⟩
        (some "svelte") PACKAGE_NAME).self.installed = (SvelteExtension.mk []).installed :=
  install_failure_without_existing_version_propagates freshInstallFailHost ⟨[]⟩
    (some "svelte") PACKAGE_NAME "1.1.0" "npm install failed" rfl rfl rfl

/-- Claim C3: calling `install_package_if_needed` twice for a package whose installed
version is already current (and that is fresh this session) performs exactly one
latest-version/install host call in total, and the second call takes the fast path:
it returns success with no latest-version query, no install call and no status
notifications.  (The local installed-version check of step 1 runs on every call,
including the fast path, as the specified algorithm itself prescribes; the
"version/install" calls bounded here are the registry/install ones the provisioned
set exists to avoid.) -/
theorem second_provisioning_call_is_noop_fast_path
    (host : Host) (self : SvelteExtension) (id : Option String)
    (package_name v : String)
    (h1 : host.npm_package_installed_version package_name = .ok (some v))
    (h2 : host.npm_package_latest_version package_name = .ok v)
    (h3 : package_name ∉ self.installed) :
    (((install_package_if_needed host self id package_name).trace
        ++ (install_package_if_needed host
              (install_package_if_needed host self id package_name).self
              id package_name).trace).filter isLatestOrInstall).length = 1
    ∧ (install_package_if_needed host
        (install_package_if_needed host self id package_name).self
        id package_name).result = .ok ()
    ∧ (install_package_if_needed host
        (install_package_if_needed host self id package_name).self
        id package_name).trace.filter isLatestOrInstall = []
    ∧ reportedStatuses (install_package_if_needed host
        (install_package_if_needed host self id package_name).self
        id package_name).trace = [] := by
  have hr1 : install_package_if_needed host self id package_name =
      ⟨.ok (), ⟨self.installed.insert package_name⟩,
        [.installedVersionQuery package_name]
          ++ statusEventsFor id .CheckingForUpdate
          ++ [.latestVersionQuery package_name]⟩ := by
    simp [install_package_if_needed, h1, h2, h3, List.elem_eq_mem]
  have hr2 : install_package_if_needed host ⟨self.installed.insert package_name⟩
      id package_name =
      ⟨.ok (), ⟨self.installed.insert package_name⟩,
        [.installedVersionQuery package_name]⟩ := by
    simp [install_package_if_needed, h1, List.elem_eq_mem, List.mem_insert_self]
  rw [hr1]
  simp only [hr2]
  refine ⟨?_, trivial, rfl, rfl⟩
  simp [List.filter_append, filter_isLatestOrInstall_statusEventsFor, isLatestOrInstall]

/-- Claim C3 witness: a package current at 2.0.0 and fresh this session — two calls
perform one registry/install call in total and the second is the silent fast path. -/
theorem second_provisioning_call_is_noop_fast_path_witness :
    (((install_package_if_needed currentHost ⟨[]⟩ (some "svelte") PACKAGE_NAME).trace
        ++ (install_package_if_needed currentHost
              (install_package_if_needed currentHost ⟨[]⟩ (some "svelte") PACKAGE_NAME).self
              (some "svelte") PACKAGE_NAME).trace).filter isLatestOrInstall).length = 1
    ∧ (install_package_if_needed currentHost
        (install_package_if_needed currentHost ⟨[]⟩ (some "svelte") PACKAGE_NAME).self
        (some "svelte") PACKAGE_NAME).result = .ok ()
    ∧ (install_package_if_needed currentHost
        (install_package_if_needed currentHost ⟨[]⟩ (some "svelte") PACKAGE_NAME).self
        (some "svelte") PACKAGE_NAME).trace.filter isLatestOrInstall = []
    ∧ reportedStatuses (install_package_if_needed currentHost
        (install_package_if_needed currentHost ⟨[]⟩ (some "svelte") PACKAGE_NAME).self
        (some "svelte") PACKAGE_NAME).trace = [] :=
  second_provisioning_call_is_noop_fast_path currentHost ⟨[]⟩ (some "svelte")
    PACKAGE_NAME "2.0.0" rfl rfl (by decide)

/-- Claim C4: invariant of every `install_package_if_needed` run — a latest-version
query for the package is performed only when the package is not yet in the
provisioned set or the installed-version query reports no installed version. -/
theorem latest_version_query_guard
    (host : Host) (self : SvelteExtension) (id : Option String) (package_name : String)
    (h : HostEvent.latestVersionQuery package_name
          ∈ (install_package_if_needed host self id package_name).trace) :
    package_name ∉ self.installed
    ∨ host.npm_package_installed_version package_name = .ok none := by
  by_cases hmem : package_name ∈ self.installed
  · right
    rcases hq : host.npm_package_installed_version package_name with e | iv
    · simp [install_package_if_needed, hq] at h
    · match iv, hq with
      | none, _ => rfl
      | some v, hq =>
        exfalso
        simp [install_package_if_needed, hq, List.elem_eq_mem, hmem] at h
  · exact Or.inl hmem

/-- Claim C4 witness: a first-time provisioning run does query the latest version,
and indeed the package was unseen this session. -/
theorem latest_version_query_guard_witness :
    PACKAGE_NAME ∉ (SvelteExtension.mk []).installed
    ∨ updateHost.npm_package_installed_version PACKAGE_NAME = .ok none :=
  latest_version_query_guard updateHost ⟨[]⟩ none PACKAGE_NAME (by decide)

/-- Claim C5: in a run of `install_package_if_needed` that does not take the fast
path and whose version queries succeed, installation of the latest version is
attempted exactly once when the installed version differs from it under exact string
equality, and no installation is attempted when they are string-equal.  (The fast
path, which performs no version comparison at all, is the subject of C3.) -/
theorem install_attempted_iff_versions_differ
    (host : Host) (self : SvelteExtension) (id : Option String)
    (package_name latest : String) (installed_version : Option String)
    (h1 : host.npm_package_installed_version package_name = .ok installed_version)
    (h2 : ¬(installed_version.isSome = true ∧ package_name ∈ self.installed))
    (h3 : host.npm_package_latest_version package_name = .ok latest) :
    (install_package_if_needed host self id package_name).trace.filter isInstallCall
      = if installed_version = some latest then []
        else [HostEvent.installCall package_name latest] := by
  have hb : (installed_version.isSome && self.installed.contains package_name) ≠ true := by
    simpa [Bool.and_eq_true, List.elem_eq_mem, decide_eq_true_iff] using h2
  rw [install_package_trace host self id package_name latest installed_version h1 hb h3]
  by_cases he : installed_version = some latest <;>
    simp [he, List.filter_append, isInstallCall, filter_isInstallCall_statusEventsFor]

/-- Claim C5 witness: installed 1.0.0, latest 1.1.0 — exactly one install call, of
version 1.1.0. -/
theorem install_attempted_iff_versions_differ_witness :
    (install_package_if_needed updateHost ⟨[]⟩ (some "svelte") PACKAGE_NAME).trace.filter
        isInstallCall
      = if (some "1.0.0" : Option String) = some "1.1.0" then []
        else [HostEvent.installCall PACKAGE_NAME "1.1.0"] :=
  install_attempted_iff_versions_differ updateHost ⟨[]⟩ (some "svelte") PACKAGE_NAME
    "1.1.0" (some "1.0.0") rfl (by decide) rfl

/-- Claim C6: with a status observer supplied, a run of `install_package_if_needed`
that needs an update reports exactly `CheckingForUpdate` followed by `Downloading`
(so `CheckingForUpdate` comes strictly before `Downloading`), and a run that takes
the fast path reports no status at all. -/
theorem status_order_checking_before_downloading
    (host : Host) (self : SvelteExtension) (i : String)
    (package_name : String) (installed_version : Option String)
    (h1 : host.npm_package_installed_version package_name = .ok installed_version) :
    (∀ latest, ¬(installed_version.isSome = true ∧ package_name ∈ self.installed) →
        host.npm_package_latest_version package_name = .ok latest →
        installed_version ≠ some latest →
        reportedStatuses
            (install_package_if_needed host self (some i) package_name).trace
          = [.CheckingForUpdate, .Downloading])
    ∧ ((installed_version.isSome = true ∧ package_name ∈ self.installed) →
        reportedStatuses
            (install_package_if_needed host self (some i) package_name).trace
          = []) := by
  constructor
  · intro latest h2 h3 hne
    have hb : (installed_version.isSome && self.installed.contains package_name) ≠ true := by
      simpa [Bool.and_eq_true, List.elem_eq_mem, decide_eq_true_iff] using h2
    rw [install_package_trace host self (some i) package_name latest installed_version
      h1 hb h3]
    simp [reportedStatuses, hne, statusEventsFor]
  · rintro ⟨hs, hm⟩
    simp [install_package_if_needed, h1, List.elem_eq_mem, hm, hs, reportedStatuses]

/-- Claim C6 witness: an update-needed run reports `CheckingForUpdate` then
`Downloading`; a fast-path run reports nothing. -/
theorem status_order_checking_before_downloading_witness :
    reportedStatuses
        (install_package_if_needed updateHost ⟨[]⟩ (some "svelte") PACKAGE_NAME).trace
      = [.CheckingForUpdate, .Downloading]
    ∧ reportedStatuses
        (install_package_if_needed currentHost ⟨[PACKAGE_NAME]⟩
          (some "svelte") PACKAGE_NAME).trace
      = [] :=
  ⟨(status_order_checking_before_downloading updateHost ⟨[]⟩ "svelte" PACKAGE_NAME
      (some "1.0.0") rfl).1 "1.1.0" (by decide) rfl (by decide),
   (status_order_checking_before_downloading currentHost ⟨[PACKAGE_NAME]⟩ "svelte"
      PACKAGE_NAME (some "2.0.0") rfl).2 (by decide)⟩

/-- Claim C8: if the latest-version query performed during `install_package_if_needed`
fails, the error is returned to the caller and the provisioned set is left
unchanged. -/
theorem latest_version_query_failure_propagates
    (host : Host) (self : SvelteExtension) (id : Option String)
    (package_name e : String) (installed_version : Option String)
    (h1 : host.npm_package_installed_version package_name = .ok installed_version)
    (h2 : ¬(installed_version.isSome = true ∧ package_name ∈ self.installed))
    (h3 : host.npm_package_latest_version package_name = .error e) :
    (install_package_if_needed host self id package_name).result = .error e
    ∧ (install_package_if_needed host self id package_name).self.installed
        = self.installed := by
  have hb : (installed_version.isSome && decide (package_name ∈ self.installed)) ≠ true := by
    simpa [Bool.and_eq_true, decide_eq_true_iff] using h2
  simp only [install_package_if_needed, h1, h3, List.elem_eq_mem]
  rw [if_neg hb]
  exact ⟨rfl, rfl⟩

/-- Claim C8 witness: a failing registry query — the error is returned and the
provisioned set stays empty. -/
theorem latest_version_query_failure_propagates_witness :
    (install_package_if_needed queryFailHost ⟨[]⟩ (some "svelte") PACKAGE_NAME).result
      = .error "registry unreachable"
    ∧ (install_package_if_needed queryFailHost ⟨[]⟩
        (some "svelte") PACKAGE_NAME).self.installed = (SvelteExtension.mk []).installed :=
  latest_version_query_failure_propagates queryFailHost ⟨[]⟩ (some "svelte")
    PACKAGE_NAME "registry unreachable" (some "1.0.0") rfl (by decide) rfl

/-- Claim C7: `Runtime::new` returns `Bun path` exactly when the executable is found
on `PATH` and `Node` otherwise, and every descriptor produced by
`Runtime::server_command` has argument list exactly `[server_path, "--stdio"]`,
whichever runtime was chosen. -/
theorem runtime_selection_and_launch_args :
    (∀ path, Runtime.new (some path) = .Bun path)
    ∧ Runtime.new none = .Node
    ∧ ∀ (rt : Runtime) (node_binary_path : Except String String)
        (server_path : String) (cmd : Command),
        rt.server_command node_binary_path server_path = .ok cmd →
        cmd.args = [server_path, "--stdio"] := by
  refine ⟨fun _ => rfl, rfl, ?_⟩
  intro rt nbp sp cmd h
  rcases rt with p | _
  · simp only [Runtime.server_command] at h
    cases h
    rfl
  · rcases nbp with e | n
    · simp [Runtime.server_command] at h
    · simp only [Runtime.server_command] at h
      cases h
      rfl

/-- Claim C7 witness: with Bun chosen (even when the host has no Node), the
descriptor's arguments are the entry script followed by `--stdio`. -/
theorem runtime_selection_and_launch_args_witness :
    (Command.mk "/usr/local/bin/bun" ["entry.js", "--stdio"] []).args
      = ["entry.js", "--stdio"] :=
  runtime_selection_and_launch_args.2.2 (.Bun "/usr/local/bin/bun")
    (.error "no host runtime") "entry.js"
    ⟨"/usr/local/bin/bun", ["entry.js", "--stdio"], []⟩ rfl

/-- Claim C9 counterexample: at the working directory `"/C:/zed-work"` — one that
carries the spurious leading separator the claim is about — the entry-script path
keeps its leading separator on Windows and on every other platform alike: no
platform's path construction strips it, contradicting the claim that one specific
platform does. -/
theorem no_platform_strips_leading_separator :
    language_server_entry_path .windows "/C:/zed-work"
        = "/C:/zed-work/node_modules/svelte-language-server/bin/server.js"
    ∧ language_server_entry_path .macOS "/C:/zed-work"
        = "/C:/zed-work/node_modules/svelte-language-server/bin/server.js"
    ∧ language_server_entry_path .linux "/C:/zed-work"
        = "/C:/zed-work/node_modules/svelte-language-server/bin/server.js" :=
  ⟨rfl, rfl, rfl⟩

/-- Claim C9 (amended): on every platform, the entry-script path placed into the
launch descriptor is the working directory passed through unchanged with
`node_modules/svelte-language-server/bin/server.js` appended — no leading path
separator is stripped on any platform. -/
theorem language_server_path_passthrough (os : Os) (current_dir : String) :
    language_server_entry_path os current_dir
      = current_dir ++ "/node_modules/svelte-language-server/bin/server.js" := by
  show current_dir ++ "/node_modules" ++ "/" ++ PACKAGE_NAME ++ "/bin/server.js" = _
  rw [String.append_assoc, String.append_assoc, String.append_assoc]
  rfl

/-- Claim C10: every descriptor returned by `context_server_command` carries the
entry-script path as its only argument — unlike the language-server launch, no
`--stdio` argument is appended. -/
theorem context_server_args_no_stdio (host : Host) (self : SvelteExtension)
    (node_binary_path : Except String String) (os : Os) (current_dir : String)
    (cmd : Command) (self2 : SvelteExtension)
    (h : context_server_command host self node_binary_path os current_dir
          = (.ok cmd, self2)) :
    cmd.args = [context_server_entry_path os current_dir]
    ∧ "--stdio" ∉ cmd.args := by
  simp only [context_server_command] at h
  rcases hr : (install_package_if_needed host self none MCP_SERVER_PACKAGE_NAME).result
      with e | u
  · rw [hr] at h
    simp at h
  · rw [hr] at h
    rcases node_binary_path with e | n
    · simp at h
    · simp only [Prod.mk.injEq, Except.ok.injEq] at h
      obtain ⟨rfl, -⟩ := h
      refine ⟨rfl, ?_⟩
      intro hmem
      simp only [List.mem_singleton] at hmem
      have hlen := congrArg String.length hmem
      have h1 : ("--stdio" : String).length = 7 := rfl
      have h2 : ("/node_modules" : String).length = 13 := rfl
      have h3 : ("/" : String).length = 1 := rfl
      have h4 : (MCP_SERVER_PACKAGE_NAME).length = 13 := rfl
      have h5 : ("/dist/index.js" : String).length = 14 := rfl
      simp only [context_server_entry_path, String.length_append, h1, h2, h3, h4, h5]
        at hlen
      omega

/-- Claim C10 witness: a successful MCP-server launch descriptor has the entry path
as its only argument and no `--stdio`. -/
theorem context_server_args_no_stdio_witness :
    (Command.mk "/hosts/node" [context_server_entry_path .linux "/work"] []).args
      = [context_server_entry_path .linux "/work"]
    ∧ "--stdio" ∉ (Command.mk "/hosts/node"
        [context_server_entry_path .linux "/work"] []).args :=
  context_server_args_no_stdio updateHost ⟨[]⟩ (.ok "/hosts/node") .linux "/work"
    ⟨"/hosts/node", [context_server_entry_path .linux "/work"], []⟩
    ⟨[MCP_SERVER_PACKAGE_NAME]⟩ rfl
